import Mathlib

/-!
Shallow embedding of the intervox OSINT-to-persona pipeline.

The data model follows the shared type definitions of the repository; the
operations are translated function by function from the investigation
coordinator (`src/modules/orchestrator/src/index.ts` and the deep-scrape
variant of the coordinator), the scraper swarm, the persona engine and the
voice interface.  External provider calls (identity resolver, per-source
scrapers, LLM analysis, chat completion) are modelled by explicit outcome
parameters, so that every function is a pure function of its inputs and the
outcomes of the provider calls it performs.  JavaScript truthiness on
optional string fields (`if (x)` is false for both `undefined` and the
empty string) is modelled by the `truthy` predicate.
-/

/-- Investigation status enumeration (shared types). -/
inductive InvestigationStatus where
  | pending
  | confirming_identity
  | scraping
  | building_persona
  | ready
  | error
deriving DecidableEq, Repr

/-- One plausible real-world match for an ambiguous input name. -/
structure IdentityCandidate where
  id : String
  name : String
  description : String
  confidence : Nat
  sources : List String
  thumbnail : Option String := none
deriving DecidableEq, Repr

/-- Identity confirmation request body. -/
structure IdentityConfirmation where
  confirmed : Bool
  selectedCandidateId : Option String := none
  additionalContext : Option String := none
deriving DecidableEq, Repr

structure Education where
  institution : String
  degree : Option String := none
  field : Option String := none
  years : Option String := none
deriving DecidableEq, Repr

structure WorkExperience where
  company : String
  role : String
  duration : Option String := none
  description : Option String := none
deriving DecidableEq, Repr

structure Quote where
  text : String
  source : String
  date : Option String := none
  context : Option String := none
deriving DecidableEq, Repr

structure Opinion where
  topic : String
  position : String
  source : Option String := none
  confidence : Nat
deriving DecidableEq, Repr

/-- Loosely structured extracted facts; absence means "not found". -/
structure PersonData where
  fullName : Option String := none
  currentRole : Option String := none
  company : Option String := none
  location : Option String := none
  bio : Option String := none
  profileImageUrl : Option String := none
  education : Option (List Education) := none
  workHistory : Option (List WorkExperience) := none
  quotes : Option (List Quote) := none
  opinions : Option (List Opinion) := none
  skills : Option (List String) := none
deriving DecidableEq, Repr

/-- Closed set of source types (shared types). -/
inductive SourceType where
  | linkedin
  | twitter
  | wikipedia
  | news
  | company
  | podcast
  | youtube
  | github
  | google
  | other
deriving DecidableEq, Repr

/-- One source's contribution to an investigation. -/
structure ScrapedData where
  id : String
  source : SourceType
  sourceUrl : String
  scrapedAt : String
  confidence : Nat
  data : PersonData
  rawContent : Option String := none
deriving DecidableEq, Repr

structure PersonaIdentity where
  fullName : String
  currentRole : String
  company : Option String := none
  location : Option String := none
  bio : String
  profileImageUrl : Option String := none
deriving DecidableEq, Repr

structure PersonaPersonality where
  traits : List String
  communicationStyle : String
  values : List String
  quirks : List String := []
deriving DecidableEq, Repr

structure PersonaKnowledge where
  expertise : List String
  opinions : List Opinion
  experiences : List String
  education : List Education
  workHistory : List WorkExperience
deriving DecidableEq, Repr

structure PersonaSpeech where
  tone : String
  vocabulary : List String
  phrases : List String
  exampleQuotes : List Quote
deriving DecidableEq, Repr

/-- The synthesized persona output. -/
structure PersonaModel where
  targetId : String
  targetName : String
  identity : PersonaIdentity
  personality : PersonaPersonality
  knowledge : PersonaKnowledge
  speech : PersonaSpeech
  systemPrompt : String
  createdAt : String
  dataPointsUsed : Nat
deriving DecidableEq, Repr

/-- The per-investigation state record owned by the coordinator. -/
structure InvestigationResult where
  targetId : String
  targetName : String
  status : InvestigationStatus
  identityCandidates : Option (List IdentityCandidate) := none
  confirmedIdentity : Option IdentityCandidate := none
  sourcesScraped : Nat
  dataPoints : Nat
  scrapedData : List ScrapedData
  persona : Option PersonaModel := none
  conversationId : Option String := none
  error : Option String := none
deriving DecidableEq, Repr

structure ConversationMessage where
  id : String
  role : String
  content : String
  timestamp : String
  audioUrl : Option String := none
deriving DecidableEq, Repr

inductive SessionStatus where
  | active
  | ended
deriving DecidableEq, Repr

structure ConversationSession where
  id : String
  personaId : String
  personaName : String
  startedAt : String
  messages : List ConversationMessage
  status : SessionStatus
deriving DecidableEq, Repr

/-- JavaScript truthiness of an optional string: `undefined` and `""` are
falsy, every other string is truthy. -/
def truthy : Option String → Bool
  | some s => !s.isEmpty
  | none => false

/-!
Scraper swarm (`findIdentityCandidates`, `scrapeAll`,
`getAvailableSources`).  The rtrvr.ai agent call is modelled by an
`AgentResult` outcome: the HTTP fetch may throw, the call may come back
unusable (success flag false or falsy result string), the result may parse
as a JSON array of candidate objects, or it may be unparseable raw text.
-/

namespace ScraperSwarm

/-- One candidate object of a parsed resolver response; every field may be
absent or falsy, mirroring the defensive field access of the source. -/
structure CandidateJson where
  name : Option String := none
  description : Option String := none
  confidence : Option Nat := none
  sources : Option (List String) := none
  thumbnail : Option String := none
deriving DecidableEq, Repr

/-- Outcome of the rtrvr.ai agent call made by `findIdentityCandidates`,
together with how its result string parses. -/
inductive AgentResult where
  | throws (msg : String)
  | failure
  | parsedArray (cs : List CandidateJson)
  | unparseable (raw : String)
deriving DecidableEq, Repr

/-- Translation of `findIdentityCandidates` (scraper-swarm module): an
unusable agent response yields a single fabricated confidence-50 candidate,
an unparseable result yields a single confidence-60 candidate carrying the
first 200 characters of the raw text, and a parsed array is mapped to
candidates field by field with truthy defaults.  A thrown fetch error
propagates to the caller. -/
def findIdentityCandidates (targetName : String) (context : Option String)
    (agent : AgentResult) (freshId : String) :
    Except String (List IdentityCandidate) :=
  match agent with
  | .throws msg => .error msg
  | .failure =>
      .ok [{ id := freshId, name := targetName,
             description := context.getD ("No additional context available"),
             confidence := 50, sources := ["google.com"] }]
  | .parsedArray cs =>
      .ok (cs.map fun c =>
        { id := freshId,
          name := if truthy c.name then c.name.getD targetName else targetName,
          description := if truthy c.description then c.description.getD ("") else "",
          confidence := match c.confidence with
            | some n => if n = 0 then 50 else n
            | none => 50,
          sources := c.sources.getD [],
          thumbnail := c.thumbnail })
  | .unparseable raw =>
      .ok [{ id := freshId, name := targetName,
             description := raw.take 200,
             confidence := 60, sources := ["google.com"] }]

/-- Outcome of one per-source scraper: the scraper may throw, resolve to
`null`, or resolve to one `ScrapedData` record. -/
inductive ScraperResult where
  | throws
  | nullResult
  | success (d : ScrapedData)
deriving DecidableEq, Repr

/-- The record a scraper outcome contributes: a thrown error is caught and
becomes `null`, so only a successful scrape contributes a record. -/
def contributed : ScraperResult → Option ScrapedData
  | .throws => none
  | .nullResult => none
  | .success d => some d

/-- Translation of `scrapeAll`: every requested source is dispatched, each
source's failure is caught locally and mapped to `null`, and the `null`
entries are filtered out of the awaited results. -/
def scrapeAll (sources : List SourceType) (oracle : SourceType → ScraperResult) :
    List ScrapedData :=
  (sources.map fun s => contributed (oracle s)).reduceOption

/-- Translation of `getAvailableSources`. -/
def getAvailableSources : List SourceType :=
  [.google, .linkedin, .twitter, .wikipedia, .news, .youtube, .podcast,
   .github, .company]

end ScraperSwarm

/-!
Standard investigation coordinator (`src/modules/orchestrator/src/index.ts`).
The resolver call of `startInvestigation`, the scrape and the persona build
of the background pipeline are modelled by outcome parameters; fresh uuids
are passed in explicitly.
-/

/-- Outcome of the awaited `findIdentityCandidates` call as seen by the
coordinator: either a candidate list or a thrown error message. -/
inductive CandidatesOutcome where
  | fail (msg : String)
  | ok (cs : List IdentityCandidate)
deriving DecidableEq, Repr

/-- Outcome of the awaited `scrapeAll` / `deepScrape` call. -/
inductive ScrapeOutcome where
  | fail (msg : String)
  | ok (sd : List ScrapedData)
deriving DecidableEq, Repr

/-- Outcome of the awaited `buildPersona` call. -/
inductive PersonaOutcome where
  | fail (msg : String)
  | ok (p : PersonaModel)
deriving DecidableEq, Repr

namespace Orchestrator

/-- Translation of the coordinator's `countDataPoints`: truthy `fullName`,
`currentRole`, `company` and `bio` each contribute 1, and the five list
fields contribute their lengths.  `location` and `profileImageUrl` are not
inspected by this variant. -/
def countDataPoints (data : List ScrapedData) : Nat :=
  data.foldl
    (fun count item =>
      count +
        ((if truthy item.data.fullName then 1 else 0) +
         (if truthy item.data.currentRole then 1 else 0) +
         (if truthy item.data.company then 1 else 0) +
         (if truthy item.data.bio then 1 else 0) +
         (item.data.quotes.getD []).length +
         (item.data.opinions.getD []).length +
         (item.data.education.getD []).length +
         (item.data.workHistory.getD []).length +
         (item.data.skills.getD []).length))
    0

/-- Translation of `startInvestigation`: a fresh record in
`confirming_identity`; a successful resolver call stores the candidates,
a thrown resolver error is caught and recorded on the `error` field. -/
def startInvestigation (targetName : String) (targetId : String)
    (resolver : CandidatesOutcome) : InvestigationResult :=
  let investigation : InvestigationResult :=
    { targetId := targetId, targetName := targetName,
      status := .confirming_identity, sourcesScraped := 0, dataPoints := 0,
      scrapedData := [] }
  match resolver with
  | .ok cs => { investigation with identityCandidates := some cs }
  | .fail msg => { investigation with status := .error, error := some msg }

/-- Translation of `confirmIdentity` (standard coordinator): a
non-confirmation always records the error "Identity not confirmed"; a
confirmation looks the selected candidate up by id and otherwise fabricates
a confidence-70 placeholder from the free-text context, then moves the
record to `scraping`. -/
def confirmIdentity (investigation : InvestigationResult)
    (confirmation : IdentityConfirmation) (freshId : String) :
    InvestigationResult :=
  if !confirmation.confirmed then
    { investigation with status := .error,
                         error := some ("Identity not confirmed") }
  else
    let confirmedCandidate := (investigation.identityCandidates.getD []).find?
      (fun c => confirmation.selectedCandidateId == some c.id)
    let placeholder : IdentityCandidate :=
      { id := freshId, name := investigation.targetName,
        description := confirmation.additionalContext.getD (""),
        confidence := 70, sources := [] }
    let investigation :=
      match confirmedCandidate with
      | none => { investigation with confirmedIdentity := some placeholder }
      | some c => { investigation with confirmedIdentity := some c }
    { investigation with status := .scraping }

/-- The record stored when the background pipeline has scraped successfully:
results, counters and the `building_persona` status are written together. -/
def afterScrapeStore (investigation : InvestigationResult)
    (sd : List ScrapedData) : InvestigationResult :=
  { investigation with scrapedData := sd, sourcesScraped := sd.length,
                       dataPoints := countDataPoints sd,
                       status := .building_persona }

/-- Translation of `runFullInvestigation` (standard coordinator), as a
function of the scrape and persona-build outcomes.  Without a confirmed
identity the pipeline returns without touching the record; any failure is
caught and folded into the `error` field. -/
def runFullInvestigation (investigation : InvestigationResult)
    (scrape : ScrapeOutcome) (personaBuild : PersonaOutcome) :
    InvestigationResult :=
  if investigation.confirmedIdentity.isNone then investigation
  else
    match scrape with
    | .fail msg => { investigation with status := .error, error := some msg }
    | .ok sd =>
        let mid := afterScrapeStore investigation sd
        match personaBuild with
        | .fail msg => { mid with status := .error, error := some msg }
        | .ok p => { mid with persona := some p, status := .ready }

/-- The record `quickInvestigate` stores before its inline pipeline: status
`scraping` with a fabricated confidence-80 identity.  The rest of
`quickInvestigate` performs exactly the field updates of
`runFullInvestigation`. -/
def quickInitial (targetName : String) (targetContext : Option String)
    (targetId candidateId : String) : InvestigationResult :=
  { targetId := targetId, targetName := targetName, status := .scraping,
    sourcesScraped := 0, dataPoints := 0, scrapedData := [],
    confirmedIdentity := some
      { id := candidateId, name := targetName,
        description := targetContext.getD (""), confidence := 80,
        sources := [] } }

/-- The set of records observable through `getInvestigationStatus` for one
investigation id: records created by `startInvestigation` or
`quickInvestigate`, mutated by `confirmIdentity`, and the intermediate and
final records written by the background pipeline. -/
inductive Reachable : InvestigationResult → Prop
  | start (targetName targetId : String) (resolver : CandidatesOutcome) :
      Reachable (startInvestigation targetName targetId resolver)
  | quick (targetName : String) (targetContext : Option String)
      (targetId candidateId : String) :
      Reachable (quickInitial targetName targetContext targetId candidateId)
  | confirm (investigation : InvestigationResult)
      (confirmation : IdentityConfirmation) (freshId : String) :
      Reachable investigation →
      Reachable (confirmIdentity investigation confirmation freshId)
  | pipelineMid (investigation : InvestigationResult) (sd : List ScrapedData) :
      Reachable investigation →
      investigation.confirmedIdentity.isSome →
      Reachable (afterScrapeStore investigation sd)
  | pipelineDone (investigation : InvestigationResult)
      (scrape : ScrapeOutcome) (personaBuild : PersonaOutcome) :
      Reachable investigation →
      Reachable (runFullInvestigation investigation scrape personaBuild)

end Orchestrator

/-!
Persona engine (`aggregateScrapedData`, `analyzePersonality`,
`generateSystemPrompt`, `buildPersona`, `countDataPoints`).  The LLM
analysis call is modelled by an `AnalysisOutcome`: the call may throw, its
text may contain no parseable JSON object, or it may parse to a
`PersonaAnalysis`.
-/

/-- JavaScript `x || dflt` on an optional string: the default is taken when
the field is absent or the empty string. -/
def orDefault (x : Option String) (dflt : String) : String :=
  match x with
  | some s => if s.isEmpty then dflt else s
  | none => dflt

namespace PersonaEngine

/-- The template literal `${data.source}` renders the source-type union
value as its string literal. -/
def sourceName : SourceType → String
  | .linkedin => "linkedin"
  | .twitter => "twitter"
  | .wikipedia => "wikipedia"
  | .news => "news"
  | .company => "company"
  | .podcast => "podcast"
  | .youtube => "youtube"
  | .github => "github"
  | .google => "google"
  | .other => "other"

/-- Result shape of `aggregateScrapedData`. -/
structure AggregatedData where
  fullName : Option String := none
  currentRole : Option String := none
  company : Option String := none
  location : Option String := none
  bio : Option String := none
  profileImageUrl : Option String := none
  education : List Education := []
  workHistory : List WorkExperience := []
  quotes : List Quote := []
  opinions : List Opinion := []
  skills : List String := []
  rawContent : String := ""
deriving DecidableEq, Repr

/-- The comparator `(a, b) => b.confidence - a.confidence` passed to the
stable array sort: `a` may precede `b` whenever `b.confidence ≤
a.confidence`. -/
def confGE (a b : ScrapedData) : Prop :=
  b.confidence ≤ a.confidence

instance : DecidableRel confGE :=
  fun a b => Nat.decLe b.confidence a.confidence

instance : IsTotal ScrapedData confGE :=
  ⟨fun a b => Nat.le_total b.confidence a.confidence⟩

instance : IsTrans ScrapedData confGE :=
  ⟨fun _ _ _ hab hbc => Nat.le_trans hbc hab⟩

/-- The loop body of `aggregateScrapedData` for one sorted record: singular
fields take the first truthy value, list fields are concatenated, raw
content is appended with a source banner. -/
def mergeStep (result : AggregatedData) (data : ScrapedData) : AggregatedData :=
  let d := data.data
  let result :=
    if !truthy result.fullName && truthy d.fullName then
      { result with fullName := d.fullName } else result
  let result :=
    if !truthy result.currentRole && truthy d.currentRole then
      { result with currentRole := d.currentRole } else result
  let result :=
    if !truthy result.company && truthy d.company then
      { result with company := d.company } else result
  let result :=
    if !truthy result.location && truthy d.location then
      { result with location := d.location } else result
  let result :=
    if !truthy result.bio && truthy d.bio then
      { result with bio := d.bio } else result
  let result :=
    if !truthy result.profileImageUrl && truthy d.profileImageUrl then
      { result with profileImageUrl := d.profileImageUrl } else result
  let result := { result with
    education := result.education ++ d.education.getD [],
    workHistory := result.workHistory ++ d.workHistory.getD [],
    quotes := result.quotes ++ d.quotes.getD [],
    opinions := result.opinions ++ d.opinions.getD [],
    skills := result.skills ++ d.skills.getD [] }
  if truthy data.rawContent then
    { result with rawContent := result.rawContent ++ "\n\n--- Source: " ++
        sourceName data.source ++ " ---\n" ++ data.rawContent.getD ("") }
  else result

/-- `[...new Set(xs)]`: deduplication keeping the first occurrence of each
string, in first-occurrence order. -/
def dedupFirst (l : List String) : List String :=
  l.foldl (fun acc x => if acc.contains x then acc else acc ++ [x]) []

/-- Translation of `aggregateScrapedData`: stable-sort the records by
descending confidence (insertion sort here, stable like the ECMAScript
array sort, so equal-confidence records keep their input order), fold the
merge step over the sorted order, then deduplicate skills. -/
def aggregateScrapedData (scrapedData : List ScrapedData) : AggregatedData :=
  let sorted := List.insertionSort confGE scrapedData
  let result := sorted.foldl mergeStep {}
  { result with skills := dedupFirst result.skills }

/-- Structured output requested from the personality-analysis LLM call. -/
structure PersonaAnalysis where
  personality : PersonaPersonality
  expertise : List String
  experiences : List String
  tone : String
  vocabulary : List String
  phrases : List String
deriving DecidableEq, Repr

/-- Outcome of the personality-analysis LLM call: the call may throw, the
response text may contain no parseable JSON object, or a `PersonaAnalysis`
is parsed from it. -/
inductive AnalysisOutcome where
  | callFails
  | noParse
  | parsed (a : PersonaAnalysis)
deriving DecidableEq, Repr

/-- The fixed generic personality skeleton returned when the analysis call
fails or yields nothing parseable; only the expertise list depends on the
input (first five aggregated skills). -/
def fallbackAnalysis (skills : List String) : PersonaAnalysis :=
  { personality :=
      { traits := ["professional", "knowledgeable"],
        communicationStyle := "Direct and informative",
        values := ["expertise", "clarity"],
        quirks := [] },
    expertise := skills.take 5,
    experiences := [],
    tone := "Professional and engaging",
    vocabulary := [],
    phrases := [] }

/-- Translation of `analyzePersonality`: a parsed structured response is
returned as-is; a thrown call or an unparseable response falls through to
the fixed fallback skeleton. -/
def analyzePersonality (data : AggregatedData) (outcome : AnalysisOutcome) :
    PersonaAnalysis :=
  match outcome with
  | .parsed a => a
  | .callFails => fallbackAnalysis data.skills
  | .noParse => fallbackAnalysis data.skills

/-- Translation of the persona engine's `countDataPoints`, a function of the
aggregated record: the four inspected truthy scalars contribute 1 each and
the five list fields contribute their lengths. -/
def countDataPoints (data : AggregatedData) : Nat :=
  (if truthy data.fullName then 1 else 0) +
  (if truthy data.currentRole then 1 else 0) +
  (if truthy data.company then 1 else 0) +
  (if truthy data.bio then 1 else 0) +
  data.quotes.length +
  data.opinions.length +
  data.education.length +
  data.workHistory.length +
  data.skills.length

/-- Translation of `generateSystemPrompt`: deterministic template
substitution of the persona fields. -/
def generateSystemPrompt (persona : PersonaModel) : String :=
  "You are " ++ persona.identity.fullName ++
  ". You must embody this person completely and respond as they would.\n\n" ++
  "## YOUR IDENTITY\n- **Name**: " ++ persona.identity.fullName ++
  "\n- **Current Role**: " ++ persona.identity.currentRole ++
  (if truthy persona.identity.company then
    " at " ++ persona.identity.company.getD ("") else "") ++
  "\n- **Location**: " ++ orDefault persona.identity.location ("Not specified") ++
  "\n- **Bio**: " ++ persona.identity.bio ++
  "\n\n## YOUR PERSONALITY\n- **Core Traits**: " ++
  (", ").intercalate persona.personality.traits ++
  "\n- **Communication Style**: " ++ persona.personality.communicationStyle ++
  "\n- **Values**: " ++ (", ").intercalate persona.personality.values ++
  "\n" ++
  (if persona.personality.quirks.length ≠ 0 then
    "- **Quirks**: " ++ (", ").intercalate persona.personality.quirks else "") ++
  "\n\n## YOUR EXPERTISE\nYou are knowledgeable about: " ++
  (", ").intercalate persona.knowledge.expertise ++
  "\n\n## YOUR OPINIONS\n" ++
  ("\n").intercalate ((persona.knowledge.opinions.take 10).map
    (fun o => "- On " ++ o.topic ++ ": " ++ o.position)) ++
  "\n\n## YOUR CAREER HISTORY\n" ++
  ("\n").intercalate ((persona.knowledge.workHistory.take 5).map
    (fun w => "- " ++ w.role ++ " at " ++ w.company ++
      (match w.duration with
       | some du => if du.isEmpty then "" else " (" ++ du ++ ")"
       | none => ""))) ++
  "\n\n## YOUR EDUCATION\n" ++
  ("\n").intercalate (persona.knowledge.education.map
    (fun e => "- " ++ orDefault e.degree ("Studied") ++ " " ++
      (match e.field with
       | some fl => if fl.isEmpty then "" else "in " ++ fl
       | none => "") ++ " at " ++ e.institution)) ++
  "\n\n## YOUR SPEAKING STYLE\n- **Tone**: " ++ persona.speech.tone ++
  "\n" ++
  (if persona.speech.vocabulary.length ≠ 0 then
    "- **Vocabulary**: You often use words like: " ++
      (", ").intercalate persona.speech.vocabulary else "") ++
  "\n" ++
  (if persona.speech.phrases.length ≠ 0 then
    "- **Signature Phrases**: " ++ ("; ").intercalate persona.speech.phrases
   else "") ++
  "\n\n## EXAMPLE QUOTES FROM YOU\n" ++
  ("\n").intercalate ((persona.speech.exampleQuotes.take 5).map
    (fun q => "- \"" ++ q.text ++ "\"")) ++
  "\n\n## INSTRUCTIONS\n1. You ARE " ++ persona.identity.fullName ++
  ". Respond in first person as yourself.\n" ++
  "2. Draw from your documented opinions, experiences, and knowledge.\n" ++
  "3. Match your documented communication style and tone.\n" ++
  "4. If asked about something you don't have specific knowledge of, " ++
  "respond as this person would - either deflecting gracefully, sharing " ++
  "a related opinion, or acknowledging you'd need to think about it.\n" ++
  "5. Stay consistent with your documented views and personality.\n" ++
  "6. Be conversational and natural - this is a voice conversation.\n" ++
  "7. Keep responses concise and suitable for spoken dialogue.\n\n" ++
  "Remember: You are not an AI assistant. You ARE " ++
  persona.identity.fullName ++ "."

/-- Translation of `buildPersona`: aggregate the scraped data, run the
personality analysis (with its fallback), assemble the persona model and
render its system prompt. -/
def buildPersona (targetId targetName : String)
    (scrapedData : List ScrapedData) (analysis : AnalysisOutcome)
    (now : String) : PersonaModel :=
  let aggregatedData := aggregateScrapedData scrapedData
  let personaAnalysis := analyzePersonality aggregatedData analysis
  let persona : PersonaModel :=
    { targetId := targetId, targetName := targetName,
      identity :=
        { fullName := orDefault aggregatedData.fullName targetName,
          currentRole := orDefault aggregatedData.currentRole ("Unknown"),
          company := aggregatedData.company,
          location := aggregatedData.location,
          bio := orDefault aggregatedData.bio (""),
          profileImageUrl := aggregatedData.profileImageUrl },
      personality := personaAnalysis.personality,
      knowledge :=
        { expertise := personaAnalysis.expertise,
          opinions := aggregatedData.opinions,
          experiences := personaAnalysis.experiences,
          education := aggregatedData.education,
          workHistory := aggregatedData.workHistory },
      speech :=
        { tone := personaAnalysis.tone,
          vocabulary := personaAnalysis.vocabulary,
          phrases := personaAnalysis.phrases,
          exampleQuotes := aggregatedData.quotes.take 10 },
      systemPrompt := "",
      createdAt := now,
      dataPointsUsed := countDataPoints aggregatedData }
  { persona with systemPrompt := generateSystemPrompt persona }

end PersonaEngine

/-!
Deep-scrape variant of the coordinator (the second orchestrator
implementation in the repository).  It differs from the standard
coordinator in `confirmIdentity` (re-search on non-confirmation with
context, explicit "No candidate selected" error), in `countDataPoints`
(also counts `location`), and in the background pipeline (per-page progress
ticks during `deepScrape` and a conversation session created after the
persona is ready).
-/

/-- Outcome of the awaited `startConversation` call of the deep pipeline. -/
inductive ConversationOutcome where
  | fail (msg : String)
  | ok (sessionId : String)
deriving DecidableEq, Repr

namespace DeepOrchestrator

/-- Translation of the deep coordinator's `countDataPoints`: truthy
`fullName`, `currentRole`, `company`, `bio` and `location` each contribute
1, and the five list fields contribute their lengths.  `profileImageUrl` is
not inspected. -/
def countDataPoints (data : List ScrapedData) : Nat :=
  data.foldl
    (fun count item =>
      count +
        ((if truthy item.data.fullName then 1 else 0) +
         (if truthy item.data.currentRole then 1 else 0) +
         (if truthy item.data.company then 1 else 0) +
         (if truthy item.data.bio then 1 else 0) +
         (if truthy item.data.location then 1 else 0) +
         (item.data.quotes.getD []).length +
         (item.data.opinions.getD []).length +
         (item.data.education.getD []).length +
         (item.data.workHistory.getD []).length +
         (item.data.skills.getD []).length))
    0

/-- Translation of the deep coordinator's `confirmIdentity`.  On
`confirmed: false` with truthy additional context the resolver is re-run
(its thrown errors propagate) and the record returns to
`confirming_identity` with the fresh candidates; with no context the record
moves to `error` "Identity not confirmed".  On `confirmed: true` an unknown
or missing candidate id with no context moves the record to `error` "No
candidate selected"; otherwise the selected candidate or a confidence-70
placeholder becomes the confirmed identity and the record moves to
`scraping`. -/
def confirmIdentity (investigation : InvestigationResult)
    (confirmation : IdentityConfirmation) (research : CandidatesOutcome)
    (freshId : String) : Except String InvestigationResult :=
  if !confirmation.confirmed then
    if truthy confirmation.additionalContext then
      match research with
      | .fail msg => .error msg
      | .ok cs =>
          .ok { investigation with identityCandidates := some cs,
                                   status := .confirming_identity }
    else
      .ok { investigation with status := .error,
                               error := some ("Identity not confirmed") }
  else
    let confirmedCandidate := (investigation.identityCandidates.getD []).find?
      (fun c => confirmation.selectedCandidateId == some c.id)
    if confirmedCandidate.isNone && !truthy confirmation.additionalContext then
      .ok { investigation with status := .error,
                               error := some ("No candidate selected") }
    else
      let placeholder : IdentityCandidate :=
        { id := freshId, name := investigation.targetName,
          description := confirmation.additionalContext.getD (""),
          confidence := 70, sources := [] }
      .ok { investigation with
              confirmedIdentity := some (confirmedCandidate.getD placeholder),
              status := .scraping }

/-- One progress tick of `deepScrape` as applied by the deep pipeline's
callback: `sourcesScraped` is overwritten with the pages-scraped counter and
`dataPoints` is recomputed from the record's current (not yet updated)
`scrapedData`. -/
def applyProgress (investigation : InvestigationResult) (ticks : List Nat) :
    InvestigationResult :=
  ticks.foldl
    (fun inv pages =>
      { inv with sourcesScraped := pages,
                 dataPoints := countDataPoints inv.scrapedData })
    investigation

/-- The record stored by the deep pipeline when `deepScrape` has resolved:
scrape results, both counters and the `building_persona` status are written
together. -/
def afterScrapeStore (investigation : InvestigationResult)
    (sd : List ScrapedData) : InvestigationResult :=
  { investigation with scrapedData := sd, sourcesScraped := sd.length,
                       dataPoints := countDataPoints sd,
                       status := .building_persona }

/-- Translation of the deep coordinator's `runFullInvestigation` as a
function of the progress ticks observed during `deepScrape`, the scrape
outcome, the persona-build outcome and the conversation-session outcome.
Every failure is caught and folded into the `error` field. -/
def runFullInvestigation (investigation : InvestigationResult)
    (ticks : List Nat) (scrape : ScrapeOutcome)
    (personaBuild : PersonaOutcome) (conversation : ConversationOutcome) :
    InvestigationResult :=
  if investigation.confirmedIdentity.isNone then investigation
  else
    let inv := applyProgress investigation ticks
    match scrape with
    | .fail msg => { inv with status := .error, error := some msg }
    | .ok sd =>
        let mid := afterScrapeStore inv sd
        match personaBuild with
        | .fail msg => { mid with status := .error, error := some msg }
        | .ok p =>
            let rdy := { mid with persona := some p, status := .ready }
            match conversation with
            | .fail msg => { rdy with status := .error, error := some msg }
            | .ok sessionId => { rdy with conversationId := some sessionId }

end DeepOrchestrator

/-!
Voice interface (`startConversation`, `chat`, `endConversation`,
`streamChat`).  The two module-level maps (sessions and per-session system
prompts) are modelled as association lists in a `VoiceState`; the chat
completion provider is modelled by the optional content string it returns
(or the list of streamed fragments).
-/

namespace VoiceInterface

/-- The module-level `conversations` and `personaPrompts` maps. -/
structure VoiceState where
  conversations : List (String × ConversationSession) := []
  personaPrompts : List (String × String) := []
deriving DecidableEq, Repr

/-- `Map.get`: the value stored for a key, if any. -/
def lookup {α : Type} (m : List (String × α)) (k : String) : Option α :=
  (m.find? (fun kv => kv.fst == k)).map (fun kv => kv.snd)

/-- `Map.set`: overwrite or add the value stored for a key. -/
def setKey {α : Type} (m : List (String × α)) (k : String) (v : α) :
    List (String × α) :=
  if (m.find? (fun kv => kv.fst == k)).isSome then
    m.map (fun kv => if kv.fst == k then (k, v) else kv)
  else m ++ [(k, v)]

/-- Translation of `startConversation`: a fresh active session with empty
history, stored together with the persona's system prompt. -/
def startConversation (st : VoiceState) (persona : PersonaModel)
    (sessionId now : String) : VoiceState × ConversationSession :=
  let session : ConversationSession :=
    { id := sessionId, personaId := persona.targetId,
      personaName := persona.identity.fullName, startedAt := now,
      messages := [], status := .active }
  ({ conversations := setKey st.conversations sessionId session,
     personaPrompts := setKey st.personaPrompts sessionId persona.systemPrompt },
   session)

/-- The fixed fallback content used when the chat provider returns no
content. -/
def fallbackContent : String := "I'm not sure how to respond to that."

/-- Translation of `chat`: not-found unless both a session and a system
prompt are stored for the id; otherwise the user turn is appended, the
provider's content (or the fixed fallback if the provider returned nothing
or an empty string) is appended as the assistant turn, and the assistant
message is returned. -/
def chat (st : VoiceState) (sessionId userMessage : String)
    (providerContent : Option String) (userMsgId assistantMsgId now : String) :
    Except String (VoiceState × ConversationMessage) :=
  match lookup st.conversations sessionId, lookup st.personaPrompts sessionId with
  | some session, some _ =>
      let userMsg : ConversationMessage :=
        { id := userMsgId, role := "user", content := userMessage,
          timestamp := now }
      let assistantContent := orDefault providerContent fallbackContent
      let assistantMsg : ConversationMessage :=
        { id := assistantMsgId, role := "assistant",
          content := assistantContent, timestamp := now }
      let session :=
        { session with messages := session.messages ++ [userMsg, assistantMsg] }
      .ok ({ st with conversations := setKey st.conversations sessionId session },
           assistantMsg)
  | _, _ => .error ("Conversation " ++ sessionId ++ " not found")

/-- Translation of `endConversation`: mark the session ended if it exists;
the session and its prompt stay stored. -/
def endConversation (st : VoiceState) (sessionId : String) : VoiceState :=
  match lookup st.conversations sessionId with
  | some session =>
      let endedSession := { session with status := SessionStatus.ended }
      { st with conversations := setKey st.conversations sessionId endedSession }
  | none => st

/-- Translation of `streamChat`, observed at the end of the stream: the same
not-found guard as `chat`, then the user turn and the concatenation of the
streamed fragments are appended to the history. -/
def streamChat (st : VoiceState) (sessionId userMessage : String)
    (fragments : List String) (userMsgId assistantMsgId now : String) :
    Except String VoiceState :=
  match lookup st.conversations sessionId, lookup st.personaPrompts sessionId with
  | some session, some _ =>
      let userMsg : ConversationMessage :=
        { id := userMsgId, role := "user", content := userMessage,
          timestamp := now }
      let fullContent := fragments.foldl (fun acc c => acc ++ c) ""
      let assistantMsg : ConversationMessage :=
        { id := assistantMsgId, role := "assistant", content := fullContent,
          timestamp := now }
      let session :=
        { session with messages := session.messages ++ [userMsg, assistantMsg] }
      .ok { st with conversations := setKey st.conversations sessionId session }
  | _, _ => .error ("Conversation " ++ sessionId ++ " not found")

end VoiceInterface

/-!
Compositions and specification-side definitions used by the claims, and
concrete sample data for counterexamples and witnesses.
-/

/-- `startInvestigation` composed with the real `findIdentityCandidates` of
the scraper swarm: the coordinator awaits the resolver inside a try/catch
and folds a thrown error into the `error` field with the thrown message. -/
def startWithResolver (targetName : String) (context : Option String)
    (targetId freshId : String) (agent : ScraperSwarm.AgentResult) :
    InvestigationResult :=
  match ScraperSwarm.findIdentityCandidates targetName context agent freshId with
  | .ok cs => Orchestrator.startInvestigation targetName targetId (.ok cs)
  | .error msg => Orchestrator.startInvestigation targetName targetId (.fail msg)

/-- Per-record data-point contribution as counted by the standard
coordinator's `countDataPoints`. -/
def orchRecordPoints (d : PersonData) : Nat :=
  (if truthy d.fullName then 1 else 0) +
  (if truthy d.currentRole then 1 else 0) +
  (if truthy d.company then 1 else 0) +
  (if truthy d.bio then 1 else 0) +
  (d.quotes.getD []).length +
  (d.opinions.getD []).length +
  (d.education.getD []).length +
  (d.workHistory.getD []).length +
  (d.skills.getD []).length

/-- Per-record data-point contribution as counted by the deep coordinator's
`countDataPoints` (which additionally counts `location`). -/
def deepRecordPoints (d : PersonData) : Nat :=
  (if truthy d.fullName then 1 else 0) +
  (if truthy d.currentRole then 1 else 0) +
  (if truthy d.company then 1 else 0) +
  (if truthy d.bio then 1 else 0) +
  (if truthy d.location then 1 else 0) +
  (d.quotes.getD []).length +
  (d.opinions.getD []).length +
  (d.education.getD []).length +
  (d.workHistory.getD []).length +
  (d.skills.getD []).length

/-- Modelled from the spec: the data-point count the specification
describes, in which the presence of each of the six scalar fields
(`fullName`, `currentRole`, `company`, `location`, `bio`,
`profileImageUrl`) contributes exactly 1 and each of the five list fields
contributes its length. -/
def specRecordPoints (d : PersonData) : Nat :=
  (if d.fullName.isSome then 1 else 0) +
  (if d.currentRole.isSome then 1 else 0) +
  (if d.company.isSome then 1 else 0) +
  (if d.location.isSome then 1 else 0) +
  (if d.bio.isSome then 1 else 0) +
  (if d.profileImageUrl.isSome then 1 else 0) +
  (d.quotes.getD []).length +
  (d.opinions.getD []).length +
  (d.education.getD []).length +
  (d.workHistory.getD []).length +
  (d.skills.getD []).length

/-- A scraped record whose only extracted fact is a location. -/
def locRecord : ScrapedData :=
  { id := "loc", source := .github, sourceUrl := "u", scrapedAt := "t",
    confidence := 80, data := { location := some "Paris" } }

/-- The spec's data-point example record: a full name and two quotes. -/
def exampleRecord : ScrapedData :=
  { id := "ex", source := .google, sourceUrl := "u", scrapedAt := "t",
    confidence := 70,
    data := { fullName := some "X",
              quotes := some [{ text := "a", source := "s" },
                              { text := "b", source := "s" }] } }

/-- A scraped record for the encyclopedia-type source. -/
def wikiRecord : ScrapedData :=
  { id := "wiki", source := .wikipedia, sourceUrl := "u", scrapedAt := "t",
    confidence := 95, data := { fullName := some "Ada Lovelace" } }

/-- A source-scraper oracle that throws for the news source, succeeds for
the encyclopedia source and resolves to null elsewhere. -/
def newsThrowsOracle : SourceType → ScraperSwarm.ScraperResult
  | .news => .throws
  | .wikipedia => .success wikiRecord
  | _ => .nullResult

/-- A stored investigation awaiting confirmation, with one known candidate. -/
def adaCandidate : IdentityCandidate :=
  { id := "cand1", name := "Ada Lovelace", description := "Mathematician",
    confidence := 90, sources := ["wikipedia.org"] }

def awaitingInvestigation : InvestigationResult :=
  Orchestrator.startInvestigation "Ada Lovelace" "t-await" (.ok [adaCandidate])

/-- The assistant message appended by a successful `chat` call. -/
def assistantReply (providerContent : Option String) (aid now : String) :
    ConversationMessage :=
  { id := aid, role := "assistant",
    content := orDefault providerContent VoiceInterface.fallbackContent,
    timestamp := now }

/-- The stored session after a successful `chat` call: the user turn and
the assistant turn are appended to the history. -/
def chatUpdatedSession (session : ConversationSession) (userMessage : String)
    (providerContent : Option String) (uid aid now : String) :
    ConversationSession :=
  { session with messages := session.messages ++
      [{ id := uid, role := "user", content := userMessage, timestamp := now },
       assistantReply providerContent aid now] }

/-- A minimal persona used to start concrete conversation sessions. -/
def demoPersona : PersonaModel :=
  { targetId := "persona-1", targetName := "Ada Lovelace",
    identity := { fullName := "Ada Lovelace", currentRole := "Mathematician",
                  bio := "Pioneer of computing" },
    personality := { traits := ["analytical"],
                     communicationStyle := "Precise", values := ["rigor"] },
    knowledge := { expertise := ["mathematics"], opinions := [],
                   experiences := [], education := [], workHistory := [] },
    speech := { tone := "Formal", vocabulary := [], phrases := [],
                exampleQuotes := [] },
    systemPrompt := "You are Ada Lovelace.", createdAt := "t0",
    dataPointsUsed := 0 }

/-- The state after starting a session for `demoPersona` and ending it. -/
def endedState : VoiceInterface.VoiceState :=
  VoiceInterface.endConversation
    (VoiceInterface.startConversation {} demoPersona "s1" "now0").fst "s1"

/-- The ended session stored in `endedState`. -/
def endedSession : ConversationSession :=
  { id := "s1", personaId := "persona-1", personaName := "Ada Lovelace",
    startedAt := "now0", messages := [], status := .ended }

/-- Two records with the same confidence but different extracted names. -/
def aliceRecord : ScrapedData :=
  { id := "a", source := .wikipedia, sourceUrl := "u", scrapedAt := "t",
    confidence := 80, data := { fullName := some "Alice" } }

def bobRecord : ScrapedData :=
  { id := "b", source := .news, sourceUrl := "u", scrapedAt := "t",
    confidence := 80, data := { fullName := some "Bob" } }

/-- A low-confidence record with a different extracted name. -/
def lowRecord : ScrapedData :=
  { id := "low", source := .google, sourceUrl := "u", scrapedAt := "t",
    confidence := 70, data := { fullName := some "Carol" } }

/-- The terminal record of re-confirming an investigation whose identity
resolution had failed: the pipeline then succeeds, but the old error
message is never cleared. -/
def staleErrorRecord : InvestigationResult :=
  Orchestrator.runFullInvestigation
    (Orchestrator.confirmIdentity
      (Orchestrator.startInvestigation "Ada Lovelace" "t-c1" (.fail "resolver down"))
      { confirmed := true, selectedCandidateId := some "c9" } "f-c1")
    (.ok []) (.ok demoPersona)

/-!
General helper lemmas.
-/

/-- Filter-mapping a list keeps one element per input on which the function
is defined. -/
theorem filterMap_length_countP {α β : Type} (f : α → Option β) (l : List α) :
    (l.filterMap f).length = l.countP (fun a => (f a).isSome) := by
  induction l with
  | nil => rfl
  | cons x xs ih =>
      cases h : f x <;>
        simp [List.filterMap_cons, h, List.countP_cons, ih]

/-- A left fold of additions starting from an accumulator is the accumulator
plus the sum of the mapped list. -/
theorem foldl_add_eq_sum {α : Type} (f : α → Nat) (l : List α) (n : Nat) :
    l.foldl (fun c a => c + f a) n = n + (l.map f).sum := by
  induction l generalizing n with
  | nil => simp
  | cons x xs ih => simp [ih, Nat.add_assoc]

/-!
Claim C2 — per-source failure isolation of `scrapeAll`.
-/

/-- C2: `scrapeAll` never fails as a whole because one source failed: a
requested source whose scraper throws or resolves to null contributes no
record, each succeeding source contributes exactly its one record, and the
result is the list of the succeeding sources' records; in particular the
news-throws / encyclopedia-succeeds scenario yields exactly one record and
no error. -/
theorem c2_scrapeAll_isolates_failures :
    (∀ (sources : List SourceType)
        (oracle : SourceType → ScraperSwarm.ScraperResult),
      (ScraperSwarm.scrapeAll sources oracle).length =
        sources.countP
          (fun s => (ScraperSwarm.contributed (oracle s)).isSome) ∧
      ∀ d : ScrapedData,
        d ∈ ScraperSwarm.scrapeAll sources oracle ↔
          ∃ s ∈ sources, oracle s = .success d) ∧
    ScraperSwarm.scrapeAll [.news, .wikipedia] newsThrowsOracle =
      [wikiRecord] := by
  constructor
  · intro sources oracle
    have heq : ScraperSwarm.scrapeAll sources oracle =
        sources.filterMap (fun s => ScraperSwarm.contributed (oracle s)) := by
      simp [ScraperSwarm.scrapeAll, List.reduceOption, List.filterMap_map]
    constructor
    · rw [heq, filterMap_length_countP]
    · intro d
      rw [heq, List.mem_filterMap]
      constructor
      · rintro ⟨s, hs, hd⟩
        refine ⟨s, hs, ?_⟩
        rcases h : oracle s with m | m | d2 <;> rw [h] at hd <;>
          simp [ScraperSwarm.contributed] at hd
        rw [hd]
      · rintro ⟨s, hs, hd⟩
        exact ⟨s, hs, by rw [hd]; rfl⟩
  · rfl

/-!
Claim C6 — the data-point count.
-/

/-- C6 counterexample: a record whose only fact is a present `location` is
counted as 0 data points by the coordinator, while the claimed counting
function (1 per present scalar field, including `location` and
`profileImageUrl`) gives 1. -/
theorem c6_location_not_counted :
    Orchestrator.countDataPoints [locRecord] = 0 ∧
    specRecordPoints locRecord.data = 1 := by
  constructor <;> rfl

/-- C6 (amended): the standard coordinator's data-point count sums, over
the records, 1 for each truthy `fullName`, `currentRole`, `company` and
`bio` plus the five list lengths — `location` and `profileImageUrl`
contribute nothing; the deep coordinator additionally counts `location` but
still not `profileImageUrl`; on the record with a full name and two quotes
both counts give 3. -/
theorem c6_count_data_points :
    (∀ data : List ScrapedData,
      Orchestrator.countDataPoints data =
        (data.map (fun item => orchRecordPoints item.data)).sum) ∧
    (∀ data : List ScrapedData,
      DeepOrchestrator.countDataPoints data =
        (data.map (fun item => deepRecordPoints item.data)).sum) ∧
    Orchestrator.countDataPoints [exampleRecord] = 3 ∧
    DeepOrchestrator.countDataPoints [exampleRecord] = 3 := by
  refine ⟨fun data => ?_, fun data => ?_, rfl, rfl⟩
  · have := foldl_add_eq_sum (fun item : ScrapedData => orchRecordPoints item.data) data 0
    simpa [Orchestrator.countDataPoints, orchRecordPoints] using this
  · have := foldl_add_eq_sum (fun item : ScrapedData => deepRecordPoints item.data) data 0
    simpa [DeepOrchestrator.countDataPoints, deepRecordPoints] using this

/-!
Claims C3 and C4 — identity confirmation.  The repository holds two
divergent `confirmIdentity` implementations; the claimed behaviour is the
deep coordinator's, while the standard coordinator sends every
non-confirmation to `error` and fabricates a placeholder for an unknown
candidate id.
-/

/-- C3 counterexample: on the standard coordinator, `confirmIdentity` with
`confirmed: false` and the non-empty additional context "The one from
Stanford" moves the stored investigation to `error` ("Identity not
confirmed") instead of re-resolving and returning to
`confirming_identity`. -/
theorem c3_counterexample :
    (Orchestrator.confirmIdentity awaitingInvestigation
        { confirmed := false, additionalContext := some "The one from Stanford" }
        "f-c3").status = .error ∧
    (Orchestrator.confirmIdentity awaitingInvestigation
        { confirmed := false, additionalContext := some "The one from Stanford" }
        "f-c3").status ≠ .confirming_identity ∧
    (Orchestrator.confirmIdentity awaitingInvestigation
        { confirmed := false, additionalContext := some "The one from Stanford" }
        "f-c3").error = some "Identity not confirmed" := by
  refine ⟨rfl, ?_, rfl⟩
  decide

/-- C3 (amended): the claimed behaviour holds for the deep coordinator's
`confirmIdentity` — `confirmed: false` with non-empty additional context
re-invokes the resolver and returns the investigation to
`confirming_identity` with the freshly fetched candidate list, and
`confirmed: false` with no context moves it to `error` "Identity not
confirmed" — while the standard coordinator's `confirmIdentity` moves every
non-confirmation to `error` "Identity not confirmed" regardless of
context. -/
theorem c3_confirm_false_behaviour :
    (∀ (investigation : InvestigationResult) (sel : Option String)
        (ctx : String) (cs : List IdentityCandidate) (freshId : String),
      ¬ctx.isEmpty →
      DeepOrchestrator.confirmIdentity investigation
          { confirmed := false, selectedCandidateId := sel,
            additionalContext := some ctx }
          (.ok cs) freshId =
        .ok { investigation with identityCandidates := some cs,
                                 status := .confirming_identity }) ∧
    (∀ (investigation : InvestigationResult) (sel : Option String)
        (research : CandidatesOutcome) (freshId : String),
      DeepOrchestrator.confirmIdentity investigation
          { confirmed := false, selectedCandidateId := sel,
            additionalContext := none }
          research freshId =
        .ok { investigation with status := .error,
                                 error := some "Identity not confirmed" }) ∧
    (∀ (investigation : InvestigationResult)
        (confirmation : IdentityConfirmation) (freshId : String),
      confirmation.confirmed = false →
      Orchestrator.confirmIdentity investigation confirmation freshId =
        { investigation with status := .error,
                             error := some "Identity not confirmed" }) := by
  refine ⟨fun investigation sel ctx cs freshId hctx => ?_,
          fun investigation sel research freshId => ?_,
          fun investigation confirmation freshId hc => ?_⟩
  · simp [DeepOrchestrator.confirmIdentity, truthy, hctx]
  · simp [DeepOrchestrator.confirmIdentity, truthy]
  · simp [Orchestrator.confirmIdentity, hc]

/-- C3 witness: the amended behaviour at a concrete investigation. -/
theorem c3_witness :
    DeepOrchestrator.confirmIdentity awaitingInvestigation
        { confirmed := false, selectedCandidateId := none,
          additionalContext := some "The one from Stanford" }
        (.ok [adaCandidate]) "f-c3w" =
      .ok { awaitingInvestigation with
              identityCandidates := some [adaCandidate],
              status := .confirming_identity } :=
  c3_confirm_false_behaviour.1 awaitingInvestigation none
    "The one from Stanford" [adaCandidate] "f-c3w" (by decide)

/-- C4 counterexample: on the standard coordinator, `confirmIdentity` with
`confirmed: true`, a `selectedCandidateId` matching no stored candidate and
no additional context does not move the investigation to `error`: it
fabricates a confidence-70 placeholder identity and proceeds to
`scraping`. -/
theorem c4_counterexample :
    (Orchestrator.confirmIdentity awaitingInvestigation
        { confirmed := true, selectedCandidateId := some "no-such-id" }
        "f-c4").status = .scraping ∧
    (Orchestrator.confirmIdentity awaitingInvestigation
        { confirmed := true, selectedCandidateId := some "no-such-id" }
        "f-c4").status ≠ .error ∧
    (Orchestrator.confirmIdentity awaitingInvestigation
        { confirmed := true, selectedCandidateId := some "no-such-id" }
        "f-c4").confirmedIdentity =
      some { id := "f-c4", name := "Ada Lovelace", description := "",
             confidence := 70, sources := [] } := by
  refine ⟨rfl, ?_, by decide⟩
  decide

/-- C4 (amended): the claimed behaviour holds for the deep coordinator —
`confirmed: true` with a candidate id matching no stored candidate and no
truthy additional context moves the investigation to `error` "No candidate
selected" — while the standard coordinator in the same situation fabricates
a confidence-70 placeholder identity and proceeds to `scraping`. -/
theorem c4_unknown_candidate_behaviour :
    (∀ (investigation : InvestigationResult)
        (confirmation : IdentityConfirmation)
        (research : CandidatesOutcome) (freshId : String),
      confirmation.confirmed = true →
      (investigation.identityCandidates.getD []).find?
          (fun c => confirmation.selectedCandidateId == some c.id) = none →
      truthy confirmation.additionalContext = false →
      DeepOrchestrator.confirmIdentity investigation confirmation research
          freshId =
        .ok { investigation with status := .error,
                                 error := some "No candidate selected" }) ∧
    (∀ (investigation : InvestigationResult)
        (confirmation : IdentityConfirmation) (freshId : String),
      confirmation.confirmed = true →
      (investigation.identityCandidates.getD []).find?
          (fun c => confirmation.selectedCandidateId == some c.id) = none →
      Orchestrator.confirmIdentity investigation confirmation freshId =
        { investigation with
            confirmedIdentity := some
              { id := freshId, name := investigation.targetName,
                description := confirmation.additionalContext.getD "",
                confidence := 70, sources := [] },
            status := .scraping }) := by
  constructor
  · intro investigation confirmation research freshId hc hfind hctx
    simp [DeepOrchestrator.confirmIdentity, hc, hfind, hctx]
  · intro investigation confirmation freshId hc hfind
    simp [Orchestrator.confirmIdentity, hc, hfind]

/-- C4 witness: the amended behaviour at a concrete investigation. -/
theorem c4_witness :
    DeepOrchestrator.confirmIdentity awaitingInvestigation
        { confirmed := true, selectedCandidateId := some "no-such-id" }
        (.ok []) "f-c4w" =
      .ok { awaitingInvestigation with status := .error,
                                       error := some "No candidate selected" } :=
  c4_unknown_candidate_behaviour.1 awaitingInvestigation
    { confirmed := true, selectedCandidateId := some "no-such-id" }
    (.ok []) "f-c4w" rfl (by decide) (by decide)

/-!
Claim C8 — candidate lists at `confirming_identity`.
-/

/-- C8 counterexample: when the resolver's response parses as an empty JSON
array, `findIdentityCandidates` passes the empty list through and
`startInvestigation` leaves a non-error investigation awaiting confirmation
with zero candidates. -/
theorem c8_counterexample :
    (startWithResolver "Ada Lovelace" none "t-c8" "f-c8"
        (.parsedArray [])).status = .confirming_identity ∧
    (startWithResolver "Ada Lovelace" none "t-c8" "f-c8"
        (.parsedArray [])).identityCandidates = some [] ∧
    (startWithResolver "Ada Lovelace" none "t-c8" "f-c8"
        (.parsedArray [])).error = none := by
  refine ⟨rfl, by decide, rfl⟩

/-- C8 (amended): a non-error investigation left awaiting confirmation by
`startInvestigation` always carries a stored candidate list, and that list
is empty exactly when the resolver response successfully parsed as an empty
candidate array — a failed or unparseable resolver response is replaced by
a single fabricated candidate, so only the empty parseable array produces
zero candidates. -/
theorem c8_candidates_at_confirming (targetName : String)
    (context : Option String) (targetId freshId : String)
    (agent : ScraperSwarm.AgentResult)
    (h : (startWithResolver targetName context targetId freshId agent).status =
      .confirming_identity) :
    ∃ cs, (startWithResolver targetName context targetId freshId
        agent).identityCandidates = some cs ∧
      (cs.length = 0 ↔ agent = .parsedArray []) := by
  rcases agent with msg | _ | cs | raw
  · exfalso
    simp [startWithResolver, ScraperSwarm.findIdentityCandidates,
      Orchestrator.startInvestigation] at h
  · exact ⟨_, rfl, by simp⟩
  · exact ⟨_, rfl, by simp [List.length_eq_zero]⟩
  · exact ⟨_, rfl, by simp⟩

/-- C8 witness: the amended statement at a concrete failed resolver call,
where the fabricated fallback candidate makes the list non-empty. -/
theorem c8_witness :
    ∃ cs, (startWithResolver "Ada Lovelace" none "t-c8w" "f-c8w"
        ScraperSwarm.AgentResult.failure).identityCandidates = some cs ∧
      (cs.length = 0 ↔
        ScraperSwarm.AgentResult.failure =
          ScraperSwarm.AgentResult.parsedArray []) :=
  c8_candidates_at_confirming "Ada Lovelace" none "t-c8w" "f-c8w" .failure rfl

/-!
Claim C9 — the personality-analysis fallback.
-/

/-- C9: whenever the LLM analysis step fails — the call throws or the
response contains no parseable structured output — `buildPersona` still
returns a persona; the analysis falls back to the fixed generic skeleton:
fixed traits, communication style, values and tone, expertise equal to the
first five aggregated skills, and empty quirks, experiences, vocabulary and
phrases. -/
theorem c9_analysis_fallback (targetId targetName : String)
    (scrapedData : List ScrapedData) (now : String)
    (outcome : PersonaEngine.AnalysisOutcome)
    (h : outcome = .callFails ∨ outcome = .noParse) :
    PersonaEngine.analyzePersonality
        (PersonaEngine.aggregateScrapedData scrapedData) outcome =
      PersonaEngine.fallbackAnalysis
        (PersonaEngine.aggregateScrapedData scrapedData).skills ∧
    (PersonaEngine.buildPersona targetId targetName scrapedData outcome
        now).personality =
      { traits := ["professional", "knowledgeable"],
        communicationStyle := "Direct and informative",
        values := ["expertise", "clarity"], quirks := [] } ∧
    (PersonaEngine.buildPersona targetId targetName scrapedData outcome
        now).knowledge.expertise =
      (PersonaEngine.aggregateScrapedData scrapedData).skills.take 5 ∧
    (PersonaEngine.buildPersona targetId targetName scrapedData outcome
        now).knowledge.experiences = ([] : List String) ∧
    (PersonaEngine.buildPersona targetId targetName scrapedData outcome
        now).speech.tone = "Professional and engaging" ∧
    (PersonaEngine.buildPersona targetId targetName scrapedData outcome
        now).speech.vocabulary = ([] : List String) ∧
    (PersonaEngine.buildPersona targetId targetName scrapedData outcome
        now).speech.phrases = ([] : List String) := by
  rcases h with h | h <;> subst h <;>
    exact ⟨rfl, rfl, rfl, rfl, rfl, rfl, rfl⟩

/-- C9 witness: the fallback at a concrete failing analysis call. -/
theorem c9_witness :
    PersonaEngine.analyzePersonality
        (PersonaEngine.aggregateScrapedData [wikiRecord]) .callFails =
      PersonaEngine.fallbackAnalysis
        (PersonaEngine.aggregateScrapedData [wikiRecord]).skills ∧
    (PersonaEngine.buildPersona "t-c9" "Ada Lovelace" [wikiRecord] .callFails
        "now").personality =
      { traits := ["professional", "knowledgeable"],
        communicationStyle := "Direct and informative",
        values := ["expertise", "clarity"], quirks := [] } ∧
    (PersonaEngine.buildPersona "t-c9" "Ada Lovelace" [wikiRecord] .callFails
        "now").knowledge.expertise =
      (PersonaEngine.aggregateScrapedData [wikiRecord]).skills.take 5 ∧
    (PersonaEngine.buildPersona "t-c9" "Ada Lovelace" [wikiRecord] .callFails
        "now").knowledge.experiences = ([] : List String) ∧
    (PersonaEngine.buildPersona "t-c9" "Ada Lovelace" [wikiRecord] .callFails
        "now").speech.tone = "Professional and engaging" ∧
    (PersonaEngine.buildPersona "t-c9" "Ada Lovelace" [wikiRecord] .callFails
        "now").speech.vocabulary = ([] : List String) ∧
    (PersonaEngine.buildPersona "t-c9" "Ada Lovelace" [wikiRecord] .callFails
        "now").speech.phrases = ([] : List String) :=
  c9_analysis_fallback "t-c9" "Ada Lovelace" [wikiRecord] "now" .callFails
    (Or.inl rfl)

/-!
Claim C10 — conversation session manager.
-/

/-- Looking a key up after replacing its value in place finds the new value
exactly when the key was present. -/
theorem lookup_replace {α : Type} (m : List (String × α)) (k : String) (v : α) :
    VoiceInterface.lookup
        (m.map (fun kv => if kv.fst == k then (k, v) else kv)) k =
      (VoiceInterface.lookup m k).map (fun _ => v) := by
  induction m with
  | nil => rfl
  | cons x xs ih =>
      unfold VoiceInterface.lookup at *
      cases hx : x.fst == k with
      | true =>
          have hx2 : x.fst = k := by simpa using hx
          simp [List.find?_cons, hx2, beq_self_eq_true]
      | false =>
          simp only [List.map_cons, hx, if_false, Bool.false_eq_true,
            List.find?_cons, cond_false]
          exact ih

/-- Looking a key up in an association list that does not contain it, after
appending a binding for it, finds the appended value. -/
theorem lookup_append_new {α : Type} (m : List (String × α)) (k : String)
    (v : α) (h : VoiceInterface.lookup m k = none) :
    VoiceInterface.lookup (m ++ [(k, v)]) k = some v := by
  induction m with
  | nil => simp [VoiceInterface.lookup]
  | cons x xs ih =>
      unfold VoiceInterface.lookup at *
      cases hx : x.fst == k with
      | true => simp [List.find?_cons, hx] at h
      | false =>
          simp only [List.cons_append, List.find?_cons, hx, cond_false] at h ⊢
          exact ih h

/-- `Map.set` followed by `Map.get` on the same key yields the stored
value. -/
theorem lookup_setKey_self {α : Type} (m : List (String × α)) (k : String)
    (v : α) : VoiceInterface.lookup (VoiceInterface.setKey m k v) k = some v := by
  unfold VoiceInterface.setKey
  by_cases h : (m.find? (fun kv => kv.fst == k)).isSome
  · rw [if_pos h, lookup_replace]
    obtain ⟨kv, hkv⟩ := Option.isSome_iff_exists.mp h
    simp [VoiceInterface.lookup, hkv]
  · rw [if_neg h]
    apply lookup_append_new
    unfold VoiceInterface.lookup
    rcases hf : m.find? (fun kv => kv.fst == k) with _ | kv
    · simp [hf]
    · simp [hf] at h

/-- The JavaScript `||` default on an optional string is non-empty whenever
the default is. -/
theorem orDefault_nonempty (x : Option String) (d : String)
    (hd : ¬d.isEmpty) : ¬(orDefault x d).isEmpty := by
  rcases x with _ | s
  · simpa [orDefault] using hd
  · by_cases h : s.isEmpty <;> simp [orDefault, h, hd]

/-- C10: `chat` and `streamChat` raise the not-found error exactly when no
session or no system prompt is stored for the id, and they never consult
the session status: on a session marked ended by `endConversation`, `chat`
still succeeds, appends the user turn and an assistant turn to the history,
and the assistant content is never empty — it is the fixed fallback string
whenever the provider returned no content. -/
theorem c10_chat_session_handling :
    (∀ (st : VoiceInterface.VoiceState)
        (sessionId userMessage : String) (providerContent : Option String)
        (uid aid now : String),
      (∃ e, VoiceInterface.chat st sessionId userMessage providerContent
          uid aid now = .error e) ↔
        (VoiceInterface.lookup st.conversations sessionId = none ∨
         VoiceInterface.lookup st.personaPrompts sessionId = none)) ∧
    (∀ (st : VoiceInterface.VoiceState)
        (sessionId userMessage : String) (fragments : List String)
        (uid aid now : String),
      (∃ e, VoiceInterface.streamChat st sessionId userMessage fragments
          uid aid now = .error e) ↔
        (VoiceInterface.lookup st.conversations sessionId = none ∨
         VoiceInterface.lookup st.personaPrompts sessionId = none)) ∧
    (∀ (st : VoiceInterface.VoiceState)
        (sessionId userMessage : String) (providerContent : Option String)
        (uid aid now : String) (session : ConversationSession)
        (prompt : String),
      VoiceInterface.lookup st.conversations sessionId = some session →
      VoiceInterface.lookup st.personaPrompts sessionId = some prompt →
      session.status = .ended →
      ∃ st2 amsg,
        VoiceInterface.chat st sessionId userMessage providerContent
            uid aid now = .ok (st2, amsg) ∧
        VoiceInterface.lookup st2.conversations sessionId = some
          { session with messages := session.messages ++
              [{ id := uid, role := "user", content := userMessage,
                 timestamp := now }, amsg] } ∧
        amsg.role = "assistant" ∧
        ¬amsg.content.isEmpty ∧
        (providerContent = none →
          amsg.content = VoiceInterface.fallbackContent)) := by
  refine ⟨?_, ?_, ?_⟩
  · intro st sessionId userMessage providerContent uid aid now
    rcases hc : VoiceInterface.lookup st.conversations sessionId with _ | s <;>
      rcases hp : VoiceInterface.lookup st.personaPrompts sessionId with _ | p <;>
        simp [VoiceInterface.chat, hc, hp]
  · intro st sessionId userMessage fragments uid aid now
    rcases hc : VoiceInterface.lookup st.conversations sessionId with _ | s <;>
      rcases hp : VoiceInterface.lookup st.personaPrompts sessionId with _ | p <;>
        simp [VoiceInterface.streamChat, hc, hp]
  · intro st sessionId userMessage providerContent uid aid now session prompt
      hs hp _hend
    have hchat : VoiceInterface.chat st sessionId userMessage providerContent uid aid now = .ok ({ st with conversations := VoiceInterface.setKey st.conversations sessionId (chatUpdatedSession session userMessage providerContent uid aid now) }, assistantReply providerContent aid now) := by
      simp [VoiceInterface.chat, hs, hp]
      exact ⟨rfl, rfl⟩
    refine ⟨_, _, hchat, lookup_setKey_self _ _ _, rfl, ?_, ?_⟩
    · exact orDefault_nonempty providerContent _ (by decide)
    · intro hnone
      rw [hnone]
      rfl

/-- C10 witness: a chat turn on a concretely ended session succeeds and
appends the two turns, with the fallback assistant content. -/
theorem c10_witness :
    ∃ st2 amsg,
      VoiceInterface.chat endedState "s1" "hello" none "u1" "a1" "now1" =
        .ok (st2, amsg) ∧
      VoiceInterface.lookup st2.conversations "s1" = some
        { endedSession with messages := endedSession.messages ++
            [{ id := "u1", role := "user", content := "hello",
               timestamp := "now1" }, amsg] } ∧
      amsg.role = "assistant" ∧
      ¬amsg.content.isEmpty ∧
      (none = (none : Option String) →
        amsg.content = VoiceInterface.fallbackContent) :=
  c10_chat_session_handling.2.2 endedState "s1" "hello" none "u1" "a1" "now1"
    endedSession "You are Ada Lovelace." (by decide) (by decide) rfl

/-!
Claim C5 — permutation invariance of aggregation.
-/

/-- Sorting by descending confidence yields the same list for any two
permutations of records whose confidence scores are pairwise distinct. -/
theorem insertionSort_confGE_eq_of_distinct (l₁ l₂ : List ScrapedData)
    (hp : l₁.Perm l₂)
    (hd : l₁.Pairwise (fun a b => a.confidence ≠ b.confidence)) :
    List.insertionSort PersonaEngine.confGE l₁ =
      List.insertionSort PersonaEngine.confGE l₂ := by
  have p1 := List.perm_insertionSort PersonaEngine.confGE l₁
  have p2 := List.perm_insertionSort PersonaEngine.confGE l₂
  have p : (List.insertionSort PersonaEngine.confGE l₁).Perm
      (List.insertionSort PersonaEngine.confGE l₂) :=
    p1.trans (hp.trans p2.symm)
  have hd₂ : l₂.Pairwise (fun a b => a.confidence ≠ b.confidence) :=
    (hp.pairwise_iff (fun hxy => Ne.symm hxy)).mp hd
  have d1 : (List.insertionSort PersonaEngine.confGE l₁).Pairwise
      (fun a b => a.confidence ≠ b.confidence) :=
    (p1.pairwise_iff (fun hxy => Ne.symm hxy)).mpr hd
  have d2 : (List.insertionSort PersonaEngine.confGE l₂).Pairwise
      (fun a b => a.confidence ≠ b.confidence) :=
    (p2.pairwise_iff (fun hxy => Ne.symm hxy)).mpr hd₂
  have s1 := List.sorted_insertionSort PersonaEngine.confGE l₁
  have s2 := List.sorted_insertionSort PersonaEngine.confGE l₂
  have strict : ∀ {l : List ScrapedData},
      l.Sorted PersonaEngine.confGE →
      l.Pairwise (fun a b => a.confidence ≠ b.confidence) →
      l.Pairwise (fun a b : ScrapedData => b.confidence < a.confidence) := by
    intro l hs hdneq
    refine (List.Pairwise.and hs hdneq).imp ?_
    intro a b hab
    obtain ⟨hle, hne⟩ := hab
    have hle2 : b.confidence ≤ a.confidence := hle
    omega
  haveI : IsAntisymm ScrapedData
      (fun a b : ScrapedData => b.confidence < a.confidence) :=
    ⟨fun a b h1 h2 => (Nat.lt_asymm h1 h2).elim⟩
  exact List.eq_of_perm_of_sorted p (strict s1 d1) (strict s2 d2)

/-- C5 counterexample: two records sharing confidence 80 with different
extracted names; the two orders of the same two-record multiset select
different `fullName` values, because the stable sort preserves the input
order of equal-confidence records. -/
theorem c5_counterexample :
    [aliceRecord, bobRecord].Perm [bobRecord, aliceRecord] ∧
    aliceRecord.confidence = bobRecord.confidence ∧
    (PersonaEngine.aggregateScrapedData [aliceRecord, bobRecord]).fullName =
      some "Alice" ∧
    (PersonaEngine.aggregateScrapedData [bobRecord, aliceRecord]).fullName =
      some "Bob" := by
  refine ⟨List.Perm.swap _ _ _, rfl, ?_, ?_⟩ <;> decide

/-- C5 (amended): for input lists that are permutations of each other and
whose records carry pairwise-distinct confidence scores, aggregation is
invariant under the input order — the descending-confidence sort is then
unique, so every singular field (and every aggregated list) is selected
identically.  With tied confidence scores the selection depends on the
input order. -/
theorem c5_aggregation_order_invariant (l₁ l₂ : List ScrapedData)
    (hp : l₁.Perm l₂)
    (hd : l₁.Pairwise (fun a b => a.confidence ≠ b.confidence)) :
    PersonaEngine.aggregateScrapedData l₁ =
      PersonaEngine.aggregateScrapedData l₂ := by
  unfold PersonaEngine.aggregateScrapedData
  rw [insertionSort_confGE_eq_of_distinct l₁ l₂ hp hd]

/-- C5 witness: the amended invariance at two concrete distinct-confidence
records. -/
theorem c5_witness :
    PersonaEngine.aggregateScrapedData [aliceRecord, lowRecord] =
      PersonaEngine.aggregateScrapedData [lowRecord, aliceRecord] :=
  c5_aggregation_order_invariant [aliceRecord, lowRecord]
    [lowRecord, aliceRecord] (List.Perm.swap _ _ _) (by decide)

/-!
Claims C1 and C7 — reachable-record invariants of the standard coordinator.
-/

/-- C1 counterexample: a record reachable through `startInvestigation` (with
a failing resolver), `confirmIdentity` (confirmed) and a successful
background pipeline is in status `ready` while its `error` field still
holds the old resolver message — so `ready` is not equivalent to "persona
present and error absent". -/
theorem c1_counterexample :
    Orchestrator.Reachable staleErrorRecord ∧
    staleErrorRecord.status = .ready ∧
    staleErrorRecord.persona.isSome ∧
    staleErrorRecord.error = some "resolver down" ∧
    ¬(staleErrorRecord.persona.isSome ∧ staleErrorRecord.error = none) := by
  refine ⟨?_, rfl, rfl, by decide, by decide⟩
  exact Orchestrator.Reachable.pipelineDone _ _ _
    (Orchestrator.Reachable.confirm _ _ _
      (Orchestrator.Reachable.start _ _ _))

/-- C1 (amended): over every record reachable through the coordinator's
public operations and the background pipeline, status `ready` implies the
persona is present and status `error` implies the error message is present;
the claimed equivalence fails in both directions because a terminal record
can be re-confirmed and the `error` field is never cleared. -/
theorem c1_status_invariants (inv : InvestigationResult)
    (h : Orchestrator.Reachable inv) :
    (inv.status = .ready → inv.persona.isSome) ∧
    (inv.status = .error → inv.error.isSome) := by
  induction h with
  | start targetName targetId resolver =>
      rcases resolver with msg | cs <;>
        simp [Orchestrator.startInvestigation]
  | quick targetName targetContext targetId candidateId =>
      simp [Orchestrator.quickInitial]
  | confirm investigation confirmation freshId _ ih =>
      rcases hc : confirmation.confirmed with _ | _
      · simp [Orchestrator.confirmIdentity, hc]
      · rcases hfind : (investigation.identityCandidates.getD []).find?
            (fun c => confirmation.selectedCandidateId == some c.id) with _ | c <;>
          simp [Orchestrator.confirmIdentity, hc, hfind]
  | pipelineMid investigation sd _ _ ih =>
      simp [Orchestrator.afterScrapeStore]
  | pipelineDone investigation scrape personaBuild _ ih =>
      by_cases hn : investigation.confirmedIdentity.isNone
      · simpa [Orchestrator.runFullInvestigation, hn] using ih
      · rcases scrape with msg | sd
        · simp [Orchestrator.runFullInvestigation, hn]
        · rcases personaBuild with msg | p <;>
            simp [Orchestrator.runFullInvestigation, hn,
              Orchestrator.afterScrapeStore]

/-- C1 witness: the invariants at a concrete reachable record whose
resolution failed. -/
theorem c1_witness :
    (Orchestrator.startInvestigation "Ada Lovelace" "t-c1w"
        (.fail "resolver down")).error.isSome :=
  (c1_status_invariants _
    (Orchestrator.Reachable.start "Ada Lovelace" "t-c1w"
      (.fail "resolver down"))).2 rfl

/-- C7: once the scraping stage has completed — the pipeline has stored the
scrape results together with the counters — the record satisfies
`sourcesScraped = length scrapedData`.  For the standard coordinator this
holds for every reachable record; for the deep coordinator it holds at the
`building_persona` checkpoint and at every later state of a pipeline run
whose scrape succeeded, even though the per-page progress ticks overwrite
`sourcesScraped` while scraping is still running. -/
theorem c7_sources_scraped_matches (inv : InvestigationResult) :
    (Orchestrator.Reachable inv →
      inv.sourcesScraped = inv.scrapedData.length) ∧
    (∀ (ticks : List Nat) (sd : List ScrapedData),
      (DeepOrchestrator.afterScrapeStore
          (DeepOrchestrator.applyProgress inv ticks) sd).sourcesScraped =
        (DeepOrchestrator.afterScrapeStore
          (DeepOrchestrator.applyProgress inv ticks) sd).scrapedData.length) ∧
    (∀ (ticks : List Nat) (sd : List ScrapedData)
        (personaBuild : PersonaOutcome) (conversation : ConversationOutcome),
      inv.confirmedIdentity.isSome →
      (DeepOrchestrator.runFullInvestigation inv ticks (.ok sd) personaBuild
          conversation).sourcesScraped =
        (DeepOrchestrator.runFullInvestigation inv ticks (.ok sd) personaBuild
          conversation).scrapedData.length) := by
  refine ⟨?_, ?_, ?_⟩
  · intro h
    induction h with
    | start targetName targetId resolver =>
        rcases resolver with msg | cs <;>
          simp [Orchestrator.startInvestigation]
    | quick targetName targetContext targetId candidateId =>
        simp [Orchestrator.quickInitial]
    | confirm investigation confirmation freshId _ ih =>
        rcases hc : confirmation.confirmed with _ | _
        · simpa [Orchestrator.confirmIdentity, hc] using ih
        · rcases hfind : (investigation.identityCandidates.getD []).find?
              (fun c => confirmation.selectedCandidateId == some c.id) with _ | c <;>
            simpa [Orchestrator.confirmIdentity, hc, hfind] using ih
    | pipelineMid investigation sd _ _ ih =>
        simp [Orchestrator.afterScrapeStore]
    | pipelineDone investigation scrape personaBuild _ ih =>
        by_cases hn : investigation.confirmedIdentity.isNone
        · simpa [Orchestrator.runFullInvestigation, hn] using ih
        · rcases scrape with msg | sd
          · simpa [Orchestrator.runFullInvestigation, hn] using ih
          · rcases personaBuild with msg | p <;>
              simp [Orchestrator.runFullInvestigation, hn,
                Orchestrator.afterScrapeStore]
  · intro ticks sd
    simp [DeepOrchestrator.afterScrapeStore]
  · intro ticks sd personaBuild conversation hsome
    rcases hval : inv.confirmedIdentity with _ | c
    · rw [hval] at hsome; simp at hsome
    · rcases personaBuild with msg | p <;> rcases conversation with msg2 | sid <;>
        simp [DeepOrchestrator.runFullInvestigation, hval,
          DeepOrchestrator.afterScrapeStore]

/-- C7 witness: both parts at concrete inputs — a freshly started
investigation, and a deep pipeline run over a quick-start record whose
scrape succeeded after two progress ticks. -/
theorem c7_witness :
    (Orchestrator.startInvestigation "Ada Lovelace" "t-c7w"
        (.ok [])).sourcesScraped =
      (Orchestrator.startInvestigation "Ada Lovelace" "t-c7w"
        (.ok [])).scrapedData.length ∧
    (DeepOrchestrator.runFullInvestigation
        (Orchestrator.quickInitial "Ada Lovelace" none "t-c7w2" "c-c7w2")
        [1, 2] (.ok [wikiRecord]) (.ok demoPersona)
        (.ok "conv-1")).sourcesScraped =
      (DeepOrchestrator.runFullInvestigation
        (Orchestrator.quickInitial "Ada Lovelace" none "t-c7w2" "c-c7w2")
        [1, 2] (.ok [wikiRecord]) (.ok demoPersona)
        (.ok "conv-1")).scrapedData.length :=
  ⟨(c7_sources_scraped_matches _).1
      (Orchestrator.Reachable.start "Ada Lovelace" "t-c7w" (.ok [])),
   (c7_sources_scraped_matches _).2.2 [1, 2] [wikiRecord] (.ok demoPersona)
      (.ok "conv-1") rfl⟩
